import Mathlib

/-!
Shallow embedding of `framework_unreal` (Unreal Engine asset-helper
classes) and verification of its specification claims.

The embedding follows `src/framework_unreal/core/asset.py`,
`level.py`, `levelSequence.py` and `material.py`.  Host (Unreal
editor) services are modelled as records of functions; each method is
a Lean function of the object's fields and the host, returning its
result together with the list of host calls it performed.  Python
exceptions are modelled with `Except String`.
-/

namespace FrameworkUnreal

/-! ## Python `str.format` with a single positional argument

`template.format(arg)` scans the template; `{}` and `{0}` substitute
the positional argument, a named field such as `{asset_name}` raises
`KeyError` because no keyword argument is supplied, and an unmatched
`{` raises `ValueError`.  The state is (inside-field?, reversed
accumulated field name, remaining characters). -/

def pyFormatAux (arg : String) : Bool → List Char → List Char → Except String String
  | false, _, [] => Except.ok ""
  | false, _, c :: rest =>
    if c = '{' then pyFormatAux arg true [] rest
    else (pyFormatAux arg false [] rest).map (fun t => c.toString ++ t)
  | true, _, [] => Except.error "ValueError: expected closing brace"
  | true, acc, c :: rest =>
    if c = '}' then
      if acc = [] ∨ acc = ['0'] then
        (pyFormatAux arg false [] rest).map (fun t => arg ++ t)
      else
        Except.error ("KeyError: " ++ String.mk acc.reverse)
    else pyFormatAux arg true (c :: acc) rest

def pyFormat (template arg : String) : Except String String :=
  pyFormatAux arg false [] template.data

instance exceptDecEq {ε α : Type} [DecidableEq ε] [DecidableEq α] :
    DecidableEq (Except ε α)
  | Except.ok a, Except.ok b =>
    if h : a = b then isTrue (by rw [h]) else isFalse (by intro hh; cases hh; exact h rfl)
  | Except.error a, Except.error b =>
    if h : a = b then isTrue (by rw [h]) else isFalse (by intro hh; cases hh; exact h rfl)
  | Except.ok _, Except.error _ => isFalse (by intro hh; cases hh)
  | Except.error _, Except.ok _ => isFalse (by intro hh; cases hh)

/-! ## Naming templates (attribute_name_template overrides) -/

/-- `level.py` line 32: `return "MAP_{asset_name}"`. -/
def LevelAsset.attribute_name_template : String := "MAP_\x7basset_name\x7d"

/-- `levelSequence.py` line 30: `return "LS_{asset_name}"`. -/
def LevelSequenceAsset.attribute_name_template : String := "LS_\x7basset_name\x7d"

/-- `material.py` lines 52-55: `"MM_{asset_name}"` when
`is_material_instance` else `"MI_{asset_name}"`. -/
def MaterialAsset.attribute_name_template (is_material_instance : Bool) : String :=
  if is_material_instance then "MM_\x7basset_name\x7d" else "MI_\x7basset_name\x7d"

/-- `asset.py` lines 75-85: `_get_asset_name` returns
`self.attribute_name_template().format(asset_name)`; the template is
passed explicitly to stand for the subclass dispatch.  The unused
`key_name="default"` parameter is omitted. -/
def BaseAsset.get_asset_name (template asset_name : String) : Except String String :=
  pyFormat template asset_name

/-! ## Asset kinds and object model -/

inductive UClass where
  | World
  | LevelSequence
  | Material
  | MaterialInstance
  | SkeletalMesh
  | StaticMesh
  | AnimationAsset
  | PhysicsAsset
  | Skeleton
  | Other
deriving DecidableEq

structure UObject where
  path : String
  cls : UClass
deriving DecidableEq

inductive UFactory where
  | worldFactory
  | levelSequenceFactoryNew
  | materialFactoryNew
deriving DecidableEq

/-- The fields set on `self` by `BaseAsset.__init__` (asset.py 20-32). -/
structure AssetSelf where
  asset_path : String
  asset_name : String
  asset_type : UClass
deriving DecidableEq

/-- `asset.py` lines 20-32: the constructor stores `asset_path` and
`asset_type` and sets `asset_name := self._get_asset_name(asset_name)`,
which can raise. -/
def BaseAsset.init (template : String) (asset_path asset_name : String)
    (asset_type : UClass) : Except String AssetSelf :=
  match BaseAsset.get_asset_name template asset_name with
  | Except.error e => Except.error e
  | Except.ok n =>
    Except.ok { asset_path := asset_path, asset_name := n, asset_type := asset_type }

/-- `levelSequence.py` lines 15-22: `__init__(self, asset_path, asset_name)`
calls `super().__init__(asset_name, asset_path, unreal.LevelSequence)` -
the two string arguments are passed to `BaseAsset` in swapped order. -/
def LevelSequenceAsset.init (asset_path asset_name : String) : Except String AssetSelf :=
  BaseAsset.init LevelSequenceAsset.attribute_name_template asset_name asset_path
    UClass.LevelSequence

/-- `level.py` lines 20-24: `super().__init__(asset_path, asset_name, unreal.World)`. -/
def LevelAsset.init (asset_path asset_name : String) : Except String AssetSelf :=
  BaseAsset.init LevelAsset.attribute_name_template asset_path asset_name UClass.World

/-- `material.py` lines 22-36: kind is `MaterialInstance` when
`is_material_instance` else `Material`. -/
def MaterialAsset.init (asset_path asset_name : String)
    (is_material_instance : Bool) : Except String AssetSelf :=
  BaseAsset.init (MaterialAsset.attribute_name_template is_material_instance)
    asset_path asset_name
    (if is_material_instance then UClass.MaterialInstance else UClass.Material)

/-! ## Host calls and the editor host

A `HostCall` records one call into the Unreal editor scripting API.
Query-only services (`does_asset_exist`, `does_directory_exist`,
`find_asset_data`, `load_asset`, property reads, registry scans) are
modelled as host functions; logging and mutating calls are traced. -/

structure FbxImportUI where
  import_mesh : Bool
  import_materials : Bool
  import_textures : Bool
  import_animations : Bool
deriving DecidableEq

structure AssetImportTask where
  filename : String
  destination_path : String
  destination_name : String
  replace_existing : Bool
  options : FbxImportUI
deriving DecidableEq

/-- An element of the `assets_to_rename` list built by
`FBXImporter.rename_assets`.  `renameData` is an
`unreal.AssetRenameData(target, destination_path, new_name)`;
`rawAsset` records that the raw asset object itself was appended
(asset.py line 307 appends `asset`, not an `AssetRenameData`). -/
inductive RenameEntry where
  | renameData (target : UObject) (destination_path : String) (new_name : String)
  | rawAsset (asset : UObject)
deriving DecidableEq

inductive HostCall where
  | createAsset (asset_name asset_path : String) (asset_type : UClass) (options : UFactory)
  | saveAsset (path : String)
  | logWarning (msg : String)
  | log (msg : String)
  | printMsg (msg : String)
  | makeDirectory (path : String)
  | spawnActorFromObject (obj : Option UObject)
  | addActorToLevel (obj : Option UObject)
  | setFolderPath (obj : Option UObject) (folder : String)
  | importAssetTasks (tasks : List AssetImportTask)
  | renameAssets (entries : List RenameEntry)
deriving DecidableEq

/-- The host editor services used by `BaseAsset` and `LevelAsset`.
`does_asset_exist` returns `Except.error e` when the host raises. -/
structure Host where
  does_asset_exist : String → Except String Bool
  create_asset : String → String → UClass → UFactory → Option UObject
  does_directory_exist : String → Bool
  find_asset_data : String → Option UObject

/-! ## BaseAsset methods (asset.py) -/

/-- `asset.py` lines 59-73: returns `Some` of the host answer, and on a
host exception prints a message and returns `None`. -/
def BaseAsset.check_asset_exists (host : Host) (asset_path : String) :
    Option Bool × List HostCall :=
  match host.does_asset_exist asset_path with
  | Except.ok b => (some b, [])
  | Except.error e =>
    (none, [HostCall.printMsg ("An error occurred while checking if the asset exists: " ++ e)])

/-- `asset.py` lines 124-131: save via `EditorAssetLibrary.save_asset`
on the asset's path, then log. -/
def BaseAsset.save_asset (self_asset_name : String) (asset : UObject) : List HostCall :=
  [HostCall.saveAsset asset.path,
   HostCall.log ("The asset " ++ self_asset_name ++ " has been saved.")]

/-- `asset.py` lines 97-122.  The `if self.check_asset_exists(...)`
test is Python truthiness: only the value `True` (here `some true`)
takes the already-exists branch; `False` and `None` fall through to
creation.  `options` stands for the subclass's
`_get_creation_options()` result. -/
def BaseAsset.create_asset (host : Host) (self : AssetSelf) (options : UFactory) :
    Option UObject × List HostCall :=
  let chk := BaseAsset.check_asset_exists host self.asset_path
  if chk.1 = some true then
    (none, chk.2 ++ [HostCall.logWarning ("The asset " ++ self.asset_name ++
      " already exists in the path " ++ self.asset_path ++ ".")])
  else
    let asset := host.create_asset self.asset_name self.asset_path self.asset_type options
    let saveCalls :=
      match asset with
      | some a => BaseAsset.save_asset self.asset_name a
      | none => []
    (asset, chk.2 ++ [HostCall.createAsset self.asset_name self.asset_path self.asset_type options]
      ++ saveCalls ++ [HostCall.log ("The asset " ++ self.asset_name ++
        " was created in the path " ++ self.asset_path ++ ".")])

/-! ## Per-kind creation options (_get_creation_options overrides) -/

/-- `level.py` lines 34-40. -/
def LevelAsset.get_creation_options : UFactory := UFactory.worldFactory

/-- `levelSequence.py` lines 32-38. -/
def LevelSequenceAsset.get_creation_options : UFactory := UFactory.levelSequenceFactoryNew

/-- `material.py` lines 57-67. -/
def MaterialAsset.get_creation_options : UFactory := UFactory.materialFactoryNew

/-! ## LevelAsset.create_asset (level.py) -/

/-- `level.py` lines 42-55: constructs
`LevelSequenceAsset(sequence_path, sequence_name)` (whose constructor
can raise) and calls its `create_asset`. -/
def LevelAsset.create_level_sequence (host : Host) (sequence_path sequence_name : String) :
    Except String (Option UObject) × List HostCall :=
  match LevelSequenceAsset.init sequence_path sequence_name with
  | Except.error e => (Except.error e, [])
  | Except.ok lvl_seq =>
    let r := BaseAsset.create_asset host lvl_seq LevelSequenceAsset.get_creation_options
    (Except.ok r.1, r.2)

/-- `level.py` lines 78-98: the per-sequence loop.  Entries are
`(sequence_name, sequence_path)` pairs in dictionary insertion order.
A raise inside `_create_level_sequence` propagates, aborting the rest
of the loop. -/
def LevelAsset.sequence_loop (host : Host) (cinematics_path : String) :
    List (String × String) → Except String Unit × List HostCall
  | [] => (Except.ok (), [])
  | (sequence_name, sequence_path) :: rest =>
    let spawnCalls : Option UObject → List HostCall := fun obj =>
      [HostCall.spawnActorFromObject obj,
       HostCall.addActorToLevel obj,
       HostCall.setFolderPath obj "1-Cinematics",
       HostCall.log ("L'asset LevelSequence " ++ sequence_name ++
         " a été ajouté à la liste des acteurs possessables du Level.")]
    match host.find_asset_data (cinematics_path ++ "/" ++ sequence_name) with
    | some sequence_asset =>
      let r := LevelAsset.sequence_loop host cinematics_path rest
      (r.1, spawnCalls (some sequence_asset) ++ r.2)
    | none =>
      match LevelAsset.create_level_sequence host sequence_path sequence_name with
      | (Except.error e, tr) => (Except.error e, tr)
      | (Except.ok created, tr) =>
        let r := LevelAsset.sequence_loop host cinematics_path rest
        (r.1, tr ++ spawnCalls created ++ r.2)

/-- `level.py` lines 57-100: base creation, early return on `None`,
idempotent `1-Cinematics` directory creation, then the sequence loop.
An `Except.error` result models a propagating Python exception; the
trace holds the calls made before the raise. -/
def LevelAsset.create_asset (host : Host) (self : AssetSelf)
    (level_sequences : List (String × String)) :
    Except String (Option UObject) × List HostCall :=
  let base := BaseAsset.create_asset host self LevelAsset.get_creation_options
  match base.1 with
  | none => (Except.ok none, base.2)
  | some level =>
    let cinematics_path := self.asset_path ++ "/1-Cinematics"
    let dirCalls :=
      if host.does_directory_exist cinematics_path then []
      else [HostCall.makeDirectory cinematics_path,
            HostCall.log ("Le dossier 1-Cinematics a été créé dans le chemin " ++
              self.asset_path ++ ".")]
    let loop := LevelAsset.sequence_loop host cinematics_path level_sequences
    match loop.1 with
    | Except.error e => (Except.error e, base.2 ++ dirCalls ++ loop.2)
    | Except.ok _ => (Except.ok (some level), base.2 ++ dirCalls ++ loop.2)

/-! ## FBXImporter (asset.py lines 134-325) -/

structure FbxInput where
  file_path : String
  destination_path : String
  asset_name : String
deriving DecidableEq

/-- Registry entry returned by `asset_reg.get_assets_by_path`. -/
structure AssetData where
  asset_name : String
  asset_class : UClass
deriving DecidableEq

/-- Host services used by `FBXImporter`.  `physics_asset` and
`skeleton` model `asset.get_editor_property(...)` on a loaded mesh. -/
structure FbxHost where
  load_asset : String → Option UObject
  physics_asset : UObject → Option UObject
  skeleton : UObject → Option UObject
  get_assets_by_path : String → List AssetData

/-- `asset.py` lines 152-213: `_set_task` plus the `FbxImportUI`
option block of `set_fbx`, combined into the task value. -/
def FBXImporter.set_fbx (fbx_path destination_path asset_name : String)
    (import_animation import_materials import_textures import_mesh replace_existing : Bool) :
    AssetImportTask :=
  { filename := fbx_path
    destination_path := destination_path
    destination_name := asset_name
    options :=
      { import_mesh := import_mesh
        import_materials := import_materials
        import_textures := import_textures
        import_animations := import_animation }
    replace_existing := replace_existing }

/-- `asset.py` lines 282-307: the mesh branch of the rename loop body.
A skeletal mesh queues `SKM_`-, and, when present, `PA_`- and
`SKL_`-prefixed `AssetRenameData`; a static mesh appends the raw
asset object itself (line 307); `isinstance` on a failed load
(`None`) matches neither branch. -/
def FBXImporter.mesh_entries (host : FbxHost) (destination_path asset_name : String) :
    List RenameEntry :=
  match host.load_asset (destination_path ++ "/" ++ asset_name) with
  | none => []
  | some asset =>
    if asset.cls = UClass.SkeletalMesh then
      [RenameEntry.renameData asset destination_path ("SKM_" ++ asset_name)]
      ++ (match host.physics_asset asset with
          | some pa => [RenameEntry.renameData pa destination_path ("PA_" ++ asset_name)]
          | none => [])
      ++ (match host.skeleton asset with
          | some sk => [RenameEntry.renameData sk destination_path ("SKL_" ++ asset_name)]
          | none => [])
    else if asset.cls = UClass.StaticMesh then
      [RenameEntry.rawAsset asset]
    else []

/-- `asset.py` lines 309-322: the animation branch of the rename loop
body, run when `import_animation` is set.  The registry `AssetData`
target is embedded as a `UObject` at its package path. -/
def FBXImporter.anim_entries (host : FbxHost) (destination_path asset_name : String) :
    List RenameEntry :=
  (host.get_assets_by_path destination_path).filterMap fun ad =>
    if ad.asset_class = UClass.AnimationAsset then
      if ad.asset_name.startsWith "AS_" then none
      else some (RenameEntry.renameData
        { path := destination_path ++ "/" ++ ad.asset_name, cls := ad.asset_class }
        destination_path ("AS_" ++ asset_name ++ ad.asset_name))
    else none

/-- `asset.py` lines 274-322: the full `assets_to_rename` list, built
entry by entry over `inputs`. -/
def FBXImporter.rename_entries (host : FbxHost) (import_animation : Bool) :
    List FbxInput → List RenameEntry
  | [] => []
  | inp :: rest =>
    FBXImporter.mesh_entries host inp.destination_path inp.asset_name
    ++ (if import_animation then
          FBXImporter.anim_entries host inp.destination_path inp.asset_name
        else [])
    ++ FBXImporter.rename_entries host import_animation rest

/-- `asset.py` lines 260-324: builds the queue then submits it with a
single `asset_tools.rename_assets` call. -/
def FBXImporter.rename_assets (host : FbxHost) (inputs : List FbxInput)
    (import_animation : Bool) : List HostCall :=
  [HostCall.renameAssets (FBXImporter.rename_entries host import_animation inputs)]

/-- `asset.py` lines 215-258: builds one task per input, submits the
whole batch with a single `import_asset_tasks` call, then runs the
rename pass. -/
def FBXImporter.import_fbx (host : FbxHost) (inputs : List FbxInput)
    (import_animation import_materials import_textures import_mesh replace_existing : Bool) :
    List HostCall :=
  let tasks := inputs.map fun inp =>
    FBXImporter.set_fbx inp.file_path inp.destination_path inp.asset_name
      import_animation import_materials import_textures import_mesh replace_existing
  HostCall.importAssetTasks tasks :: FBXImporter.rename_assets host inputs import_animation

/-! ## Trace counting helpers -/

def HostCall.isCreate : HostCall → Bool
  | HostCall.createAsset _ _ _ _ => true
  | _ => false

def HostCall.isSave : HostCall → Bool
  | HostCall.saveAsset _ => true
  | _ => false

def HostCall.isImportTasks : HostCall → Bool
  | HostCall.importAssetTasks _ => true
  | _ => false

def HostCall.isRenameAssets : HostCall → Bool
  | HostCall.renameAssets _ => true
  | _ => false

def HostCall.isSpawn : HostCall → Bool
  | HostCall.spawnActorFromObject _ => true
  | _ => false

def countCreate (tr : List HostCall) : Nat := (tr.filter HostCall.isCreate).length

def countSave (tr : List HostCall) : Nat := (tr.filter HostCall.isSave).length

def countImportTasks (tr : List HostCall) : Nat := (tr.filter HostCall.isImportTasks).length

def countRenameAssets (tr : List HostCall) : Nat := (tr.filter HostCall.isRenameAssets).length

def countSpawn (tr : List HostCall) : Nat := (tr.filter HostCall.isSpawn).length

/-- Total number of tasks carried by `importAssetTasks` calls in a trace. -/
def submittedTaskCount : List HostCall → Nat
  | [] => 0
  | HostCall.importAssetTasks ts :: rest => ts.length + submittedTaskCount rest
  | _ :: rest => submittedTaskCount rest

/-! ## Claims

One theorem per claim of the specification, with witnesses for the
hypothesised ones and counterexamples where the claim fails on the
code. -/

/-- C1: the claim says that for every kind and base name without the
kind's prefix, `_get_asset_name` (called from the constructor)
returns the template with the base name substituted and does not
raise.  In fact the templates use a named placeholder
(`{asset_name}`) while `str.format` receives a positional argument,
so name resolution — and therefore every construction — raises
`KeyError` for every base name.  Shown here for kind Level. -/
theorem C1_level_name_resolution_raises (asset_path b : String) :
    BaseAsset.get_asset_name LevelAsset.attribute_name_template b =
      Except.error "KeyError: asset_name" ∧
    BaseAsset.init LevelAsset.attribute_name_template asset_path b UClass.World =
      Except.error "KeyError: asset_name" :=
  ⟨rfl, rfl⟩

/-- C2: when the existence check answers `True`, `create_asset` only
logs a warning and returns `None`: the whole trace is the single
warning, with no creation, save or directory call. -/
theorem C2_create_asset_noop_when_exists (host : Host) (self : AssetSelf) (options : UFactory)
    (h : host.does_asset_exist self.asset_path = Except.ok true) :
    BaseAsset.create_asset host self options =
      (none, [HostCall.logWarning ("The asset " ++ self.asset_name ++
        " already exists in the path " ++ self.asset_path ++ ".")]) := by
  simp [BaseAsset.create_asset, BaseAsset.check_asset_exists, h]

def hostC2 : Host :=
  { does_asset_exist := fun _ => Except.ok true
    create_asset := fun _ _ _ _ => none
    does_directory_exist := fun _ => false
    find_asset_data := fun _ => none }

/-- C2 witness: concrete host on which the asset already exists. -/
theorem C2_create_asset_noop_when_exists_w :
    hostC2.does_asset_exist "/Game/Lvl" = Except.ok true ∧
    BaseAsset.create_asset hostC2 ⟨"/Game/Lvl", "MAP_Lvl", UClass.World⟩ UFactory.worldFactory =
      (none, [HostCall.logWarning ("The asset " ++ "MAP_Lvl" ++
        " already exists in the path " ++ "/Game/Lvl" ++ ".")]) :=
  ⟨rfl, C2_create_asset_noop_when_exists hostC2 ⟨"/Game/Lvl", "MAP_Lvl", UClass.World⟩
    UFactory.worldFactory rfl⟩

/-- C3: when the existence check answers `False`, the trace of
`create_asset` holds exactly one host creation call, and when the
creation call returns a non-null asset, exactly one save call. -/
theorem C3_create_asset_one_create_one_save (host : Host) (self : AssetSelf) (options : UFactory)
    (h : host.does_asset_exist self.asset_path = Except.ok false) :
    countCreate (BaseAsset.create_asset host self options).2 = 1 ∧
    ((BaseAsset.create_asset host self options).1.isSome →
      countSave (BaseAsset.create_asset host self options).2 = 1) := by
  cases hc : host.create_asset self.asset_name self.asset_path self.asset_type options with
  | none =>
    simp [BaseAsset.create_asset, BaseAsset.check_asset_exists, h, hc, countCreate, countSave,
      HostCall.isCreate, HostCall.isSave, BaseAsset.save_asset, List.filter]
  | some a =>
    simp [BaseAsset.create_asset, BaseAsset.check_asset_exists, h, hc, countCreate, countSave,
      HostCall.isCreate, HostCall.isSave, BaseAsset.save_asset, List.filter]

def objC3 : UObject := { path := "/Game/Lvl/MAP_Lvl", cls := UClass.World }

def hostC3 : Host :=
  { does_asset_exist := fun _ => Except.ok false
    create_asset := fun _ _ _ _ => some objC3
    does_directory_exist := fun _ => false
    find_asset_data := fun _ => none }

/-- C3 witness: concrete host on which the asset is missing and
creation succeeds. -/
theorem C3_create_asset_one_create_one_save_w :
    hostC3.does_asset_exist "/Game/Lvl" = Except.ok false ∧
    countCreate (BaseAsset.create_asset hostC3 ⟨"/Game/Lvl", "MAP_Lvl", UClass.World⟩
      UFactory.worldFactory).2 = 1 ∧
    ((BaseAsset.create_asset hostC3 ⟨"/Game/Lvl", "MAP_Lvl", UClass.World⟩
      UFactory.worldFactory).1.isSome →
      countSave (BaseAsset.create_asset hostC3 ⟨"/Game/Lvl", "MAP_Lvl", UClass.World⟩
        UFactory.worldFactory).2 = 1) :=
  ⟨rfl, C3_create_asset_one_create_one_save hostC3 ⟨"/Game/Lvl", "MAP_Lvl", UClass.World⟩
    UFactory.worldFactory rfl⟩

def skelMeshC4 : UObject := { path := "/Game/Chars/hero", cls := UClass.SkeletalMesh }
def physC4 : UObject := { path := "/Game/Chars/hero_Physics", cls := UClass.PhysicsAsset }
def skelC4 : UObject := { path := "/Game/Chars/hero_Skeleton", cls := UClass.Skeleton }
def statMeshC4 : UObject := { path := "/Game/Props/rock", cls := UClass.StaticMesh }

def fbxHostC4 : FbxHost :=
  { load_asset := fun p =>
      if p = "/Game/Chars/hero" then some skelMeshC4
      else if p = "/Game/Props/rock" then some statMeshC4
      else none
    physics_asset := fun o => if o = skelMeshC4 then some physC4 else none
    skeleton := fun o => if o = skelMeshC4 then some skelC4 else none
    get_assets_by_path := fun _ => [] }

/-- C4: in the rename pass a skeletal mesh is queued with prefix
`SKM_` and its physics asset and skeleton with `PA_` and `SKL_` as
the claim states, but a static mesh gets NO `SM_`-prefixed rename:
line 307 appends the raw asset object itself instead of an
`AssetRenameData`, so no new name is queued for it (evaluated on a
batch with one skeletal and one static mesh). -/
theorem C4_static_mesh_rename_not_queued :
    FBXImporter.rename_assets fbxHostC4
      [⟨"hero.fbx", "/Game/Chars", "hero"⟩, ⟨"rock.fbx", "/Game/Props", "rock"⟩] false =
      [HostCall.renameAssets
        [RenameEntry.renameData skelMeshC4 "/Game/Chars" "SKM_hero",
         RenameEntry.renameData physC4 "/Game/Chars" "PA_hero",
         RenameEntry.renameData skelC4 "/Game/Chars" "SKL_hero",
         RenameEntry.rawAsset statMeshC4]] ∧
    RenameEntry.renameData statMeshC4 "/Game/Props" "SM_rock" ∉
      FBXImporter.rename_entries fbxHostC4 false
        [⟨"hero.fbx", "/Game/Chars", "hero"⟩, ⟨"rock.fbx", "/Game/Props", "rock"⟩] :=
  ⟨by decide, by decide⟩

/-- C5 counterexample: the claim says kind Material (constructed with
`is_material_instance = False`) resolves with prefix `MM_`; in the
code its template is not `MM_{asset_name}`. -/
theorem C5_material_template_not_MM :
    MaterialAsset.attribute_name_template false ≠ "MM_\x7basset_name\x7d" := by decide

/-- C5 amended: the lookup gives kind Material the template
`MI_{asset_name}` and kind MaterialInstance the template
`MM_{asset_name}` — the opposite of the specification's table. -/
theorem C5_material_templates_swapped :
    MaterialAsset.attribute_name_template false = "MI_\x7basset_name\x7d" ∧
    MaterialAsset.attribute_name_template true = "MM_\x7basset_name\x7d" :=
  ⟨rfl, rfl⟩

def hostC6 : Host :=
  { does_asset_exist := fun _ => Except.ok false
    create_asset := fun n p c _ => some { path := p ++ "/" ++ n, cls := c }
    does_directory_exist := fun _ => false
    find_asset_data := fun _ => none }

/-- C6: the claim says Level creation with N entries spawns N actors
whether each sequence pre-existed or was newly created.  On a host
where the level is created, the cinematics folder is made, but the
single sequence entry is absent, `_create_level_sequence` raises
`KeyError` inside the `LevelSequenceAsset` constructor, so
`create_asset` aborts with zero actors spawned instead of one. -/
theorem C6_missing_sequence_aborts :
    (LevelAsset.create_asset hostC6 ⟨"/Game/Lvl", "MAP_Lvl", UClass.World⟩
      [("Seq01", "/Game/Sequences")]).1 = Except.error "KeyError: asset_name" ∧
    countSpawn (LevelAsset.create_asset hostC6 ⟨"/Game/Lvl", "MAP_Lvl", UClass.World⟩
      [("Seq01", "/Game/Sequences")]).2 = 0 ∧
    HostCall.makeDirectory "/Game/Lvl/1-Cinematics" ∈
      (LevelAsset.create_asset hostC6 ⟨"/Game/Lvl", "MAP_Lvl", UClass.World⟩
        [("Seq01", "/Game/Sequences")]).2 :=
  ⟨rfl, by decide, by decide⟩

/-- C7: for every batch of M FBX entries, `import_fbx` performs
exactly one `import_asset_tasks` submission carrying M tasks in
total, and exactly one `rename_assets` submission. -/
theorem C7_single_batch_submissions (host : FbxHost) (inputs : List FbxInput)
    (ia im it imh rep : Bool) :
    countImportTasks (FBXImporter.import_fbx host inputs ia im it imh rep) = 1 ∧
    countRenameAssets (FBXImporter.import_fbx host inputs ia im it imh rep) = 1 ∧
    submittedTaskCount (FBXImporter.import_fbx host inputs ia im it imh rep) = inputs.length := by
  refine ⟨?_, ?_, ?_⟩ <;>
    simp [FBXImporter.import_fbx, FBXImporter.rename_assets, countImportTasks,
      countRenameAssets, submittedTaskCount, HostCall.isImportTasks, HostCall.isRenameAssets,
      List.filter]

/-- C8 counterexample: the claim says a base name already carrying the
prefix is returned unchanged; resolving `MAP_b` for kind Level does
not return `MAP_b` (it raises `KeyError`). -/
theorem C8_prefixed_name_not_returned_unchanged :
    BaseAsset.get_asset_name LevelAsset.attribute_name_template "MAP_b" ≠
      Except.ok "MAP_b" := by decide

/-- C8 amended: `_get_asset_name` has no prefix check and never
returns a name at all: for every base name, prefixed or not, it
raises `KeyError` under all four registered templates, so the claimed
idempotence equation never applies. -/
theorem C8_resolution_always_raises (b : String) :
    BaseAsset.get_asset_name LevelAsset.attribute_name_template b =
      Except.error "KeyError: asset_name" ∧
    BaseAsset.get_asset_name LevelSequenceAsset.attribute_name_template b =
      Except.error "KeyError: asset_name" ∧
    BaseAsset.get_asset_name (MaterialAsset.attribute_name_template false) b =
      Except.error "KeyError: asset_name" ∧
    BaseAsset.get_asset_name (MaterialAsset.attribute_name_template true) b =
      Except.error "KeyError: asset_name" :=
  ⟨rfl, rfl, rfl, rfl⟩

/-- C9 counterexample: the claim says the constructed object's
`asset_path` equals the requested name; in fact no object is ever
constructed — the constructor raises `KeyError` while formatting the
name — so no such object exists for a concrete request. -/
theorem C9_no_constructed_object :
    ¬ ∃ self : AssetSelf,
      LevelSequenceAsset.init "/Game/Cinematics" "Shot010" = Except.ok self ∧
      self.asset_path = "Shot010" := by
  rintro ⟨self, h, -⟩
  rw [show LevelSequenceAsset.init "/Game/Cinematics" "Shot010" =
    Except.error "KeyError: asset_name" from rfl] at h
  exact Except.noConfusion h

/-- C9 amended: `LevelSequenceAsset.__init__` does forward its two
string arguments to `BaseAsset` in swapped order (the requested name
lands in the path slot and the template is applied to the requested
path), but the name formatting then raises `KeyError`, so
construction never completes and `create_asset` is unreachable. -/
theorem C9_ctor_swaps_then_raises (asset_path asset_name : String) :
    LevelSequenceAsset.init asset_path asset_name =
      BaseAsset.init LevelSequenceAsset.attribute_name_template asset_name asset_path
        UClass.LevelSequence ∧
    LevelSequenceAsset.init asset_path asset_name = Except.error "KeyError: asset_name" :=
  ⟨rfl, rfl⟩

/-- C10: when the host existence query raises,
`check_asset_exists` returns `None`, and `create_asset` treats that
like a missing asset: the trace holds exactly one creation call and
the caller receives the host's creation result, not an error. -/
theorem C10_check_error_treated_as_missing (host : Host) (self : AssetSelf)
    (options : UFactory) (e : String)
    (h : host.does_asset_exist self.asset_path = Except.error e) :
    (BaseAsset.check_asset_exists host self.asset_path).1 = none ∧
    countCreate (BaseAsset.create_asset host self options).2 = 1 ∧
    (BaseAsset.create_asset host self options).1 =
      host.create_asset self.asset_name self.asset_path self.asset_type options := by
  refine ⟨?_, ?_, ?_⟩ <;>
  cases hc : host.create_asset self.asset_name self.asset_path self.asset_type options <;>
    simp [BaseAsset.create_asset, BaseAsset.check_asset_exists, h, hc, countCreate,
      HostCall.isCreate, BaseAsset.save_asset, List.filter]

def hostC10 : Host :=
  { does_asset_exist := fun _ => Except.error "host exception"
    create_asset := fun _ _ _ _ => some objC3
    does_directory_exist := fun _ => false
    find_asset_data := fun _ => none }

/-- C10 witness: concrete host whose existence query raises. -/
theorem C10_check_error_treated_as_missing_w :
    hostC10.does_asset_exist "/Game/Lvl" = Except.error "host exception" ∧
    ((BaseAsset.check_asset_exists hostC10 "/Game/Lvl").1 = none ∧
     countCreate (BaseAsset.create_asset hostC10 ⟨"/Game/Lvl", "MAP_Lvl", UClass.World⟩
       UFactory.worldFactory).2 = 1 ∧
     (BaseAsset.create_asset hostC10 ⟨"/Game/Lvl", "MAP_Lvl", UClass.World⟩
       UFactory.worldFactory).1 =
       hostC10.create_asset "MAP_Lvl" "/Game/Lvl" UClass.World UFactory.worldFactory) :=
  ⟨rfl, C10_check_error_treated_as_missing hostC10 ⟨"/Game/Lvl", "MAP_Lvl", UClass.World⟩
    UFactory.worldFactory "host exception" rfl⟩

end FrameworkUnreal
